import Mathlib

/-!
Verification development for the instafy polling loop (src/main.py).

The Python program polls Spotify for the currently playing track and pushes
a "Listening to: title - artist" note to Instagram, with an adaptive
next-poll delay.  The definitions below are a shallow embedding of the
functions `get_current_song`, `update_instagram_note`,
`calculate_next_poll_time` and one iteration of the `while True` loop in
`main`.  Python `None` becomes `Option.none`, numbers become `ℚ` (Python
division is exact real-valued division on these inputs), exceptions become
`Except String`, and the external Spotify/Instagram services are modelled
as explicit inputs describing what the next calls to them would do.
-/

/-- One entry of the response's item: the track metadata that
`get_current_song` reads (`name`, `artists[0].name`, `duration_ms`). -/
structure PlayingItem where
  name : String
  artists : List String
  duration_ms : ℚ
deriving Repr, DecidableEq

/-- The provider's "currently playing" response body: an optional `item`
(null when nothing is playing) plus `progress_ms`. -/
structure PlayingResponse where
  item : Option PlayingItem
  progress_ms : ℚ
deriving Repr, DecidableEq

/-- Behaviour of the next `spotify_object.current_user_playing_track()`
call: it either returns a response (possibly `None`) or raises. -/
inductive SpotifyFetch where
  | ok (current_song : Option PlayingResponse)
  | raise (e : String)
deriving Repr, DecidableEq

/-- The quadruple `(song_title, artist_name, duration_ms, progress_ms)`
that `get_current_song` returns; each component is `None` in the
nothing-playing and error cases. -/
structure SongResult where
  song_title : Option String
  artist_name : Option String
  duration_ms : Option ℚ
  progress_ms : Option ℚ
deriving Repr, DecidableEq

/-- The body of the `try:` block in `get_current_song`: reads the response
and extracts the quadruple; accessing `artists[0]` on an empty list raises
(IndexError), as does the fetch itself when the transport fails. -/
def get_current_song_body (fetch : SpotifyFetch) : Except String SongResult :=
  match fetch with
  | .raise e => .error e
  | .ok none => .ok ⟨none, none, none, none⟩
  | .ok (some current_song) =>
    match current_song.item with
    | none => .ok ⟨none, none, none, none⟩
    | some item =>
      match item.artists with
      | [] => .error ("IndexError: list index out of range")
      | a :: _ => .ok ⟨some item.name, some a, some item.duration_ms,
                       some current_song.progress_ms⟩

/-- `get_current_song`: the `try/except` wrapper; any exception from the
body is caught and mapped to `(None, None, None, None)`. -/
def get_current_song (fetch : SpotifyFetch) : SongResult :=
  match get_current_song_body fetch with
  | .ok r => r
  | .error _ => ⟨none, none, none, none⟩

/-- Behaviour of one `client.create_note(status, 0)` call: success, raise
`LoginRequired`, or raise some other exception. -/
inductive NoteOutcome where
  | success
  | loginRequired
  | otherError (e : String)
deriving Repr, DecidableEq

/-- Behaviour of the Instagram client across one `update_instagram_note`
call: what the first `create_note` does, what `login_instagram` would do
if invoked (it re-raises every failure), and what a second `create_note`
would do. -/
structure InstagramClient where
  first_attempt : NoteOutcome
  relogin : Except String Unit
  second_attempt : NoteOutcome
deriving Repr

/-- Observable effect of one `update_instagram_note` call: how many times
`create_note` was invoked, how many times `login_instagram` was invoked,
and whether some `create_note` call succeeded. -/
structure PublishResult where
  note_calls : ℕ
  relogin_calls : ℕ
  succeeded : Bool
deriving Repr, DecidableEq

/-- `update_instagram_note`: tries `create_note`; on `LoginRequired` it
re-logs-in and retries once inside an inner `try/except Exception`; any
other exception is caught by the outer `except Exception`.  An `Except.error`
result would mean an exception propagated to the caller; every branch of
the source returns normally, so every branch here is `Except.ok`. -/
def update_instagram_note (client : InstagramClient) (status : String) :
    Except String PublishResult :=
  match client.first_attempt with
  | .success => .ok ⟨1, 0, true⟩
  | .otherError _ => .ok ⟨1, 0, false⟩
  | .loginRequired =>
    match client.relogin with
    | .error _ => .ok ⟨1, 1, false⟩
    | .ok _ =>
      match client.second_attempt with
      | .success => .ok ⟨2, 1, true⟩
      | .loginRequired => .ok ⟨2, 1, false⟩
      | .otherError _ => .ok ⟨2, 1, false⟩

/-- `calculate_next_poll_time`: `15 * 60` when either argument is `None`,
otherwise `max((duration_ms - progress_ms) / 2 / 1000, 30)`. -/
def calculate_next_poll_time (duration_ms progress_ms : Option ℚ) : ℚ :=
  match duration_ms, progress_ms with
  | some d, some p =>
    let remaining_ms := d - p
    let half_remaining_ms := remaining_ms / 2
    max (half_remaining_ms / 1000) 30
  | _, _ => 15 * 60

/-- Python truthiness of an optional string: `None` and `""` are falsy. -/
def truthy : Option String → Bool
  | none => false
  | some s => s != ""

/-- Model of `random.randint(lo, hi)`: draws from the inclusive range
`[lo, hi]`; the draw is determined by an explicit seed. -/
def randint (lo hi seed : ℕ) : ℕ := lo + seed % (hi - lo + 1)

/-- The loop's mutable published-state: `prev_song_title` and
`prev_artist_name` (both start as `None`). -/
structure LoopState where
  prev_song_title : Option String
  prev_artist_name : Option String
deriving Repr, DecidableEq

/-- Everything external that one loop iteration consumes: the Spotify
fetch behaviour, the Instagram client behaviour, the randomness for
`random.randint`, the current wall-clock time, and an optional unexpected
exception escaping the iteration's steps (modelling the `except Exception`
at the loop boundary). -/
structure IterInput where
  fetch : SpotifyFetch
  client : InstagramClient
  rand_seed : ℕ
  now : ℚ
  raise_event : Option String
deriving Repr

/-- Result of one loop iteration: the new published-state, the absolute
next-poll time, the list of status texts passed to
`update_instagram_note` this iteration, and that call's result if made. -/
structure IterResult where
  state : LoopState
  next_poll_time : ℚ
  publishes : List String
  publish_result : Option PublishResult
deriving Repr, DecidableEq

/-- The body of the `try:` block of one iteration of `while True` in
`main` (the observe / decide / publish / reschedule steps); an
`Except.error` is an exception escaping to the loop-boundary handler. -/
def loop_body (st : LoopState) (inp : IterInput) : Except String IterResult :=
  match inp.raise_event with
  | some e => .error e
  | none =>
    let r := get_current_song inp.fetch
    if truthy r.song_title && truthy r.artist_name then
      if r.song_title != st.prev_song_title || r.artist_name != st.prev_artist_name then
        let status := "Listening to: " ++ r.song_title.getD "" ++ " - " ++
          r.artist_name.getD ""
        match update_instagram_note inp.client status with
        | .error e => .error e
        | .ok pr =>
          .ok ⟨⟨r.song_title, r.artist_name⟩,
               inp.now + calculate_next_poll_time r.duration_ms r.progress_ms,
               [status], some pr⟩
      else
        .ok ⟨st, inp.now + calculate_next_poll_time r.duration_ms r.progress_ms,
             [], none⟩
    else
      let next_poll_interval := randint (10 * 60) (20 * 60) inp.rand_seed
      .ok ⟨st, inp.now + (next_poll_interval : ℚ), [], none⟩

/-- One full iteration including the loop-boundary `except Exception`
handler: an escaped exception is caught, nothing is published, and the
next poll is set to `time.time() + 60`. -/
def loop_step (st : LoopState) (inp : IterInput) : IterResult :=
  match loop_body st inp with
  | .ok r => r
  | .error _ => ⟨st, inp.now + 60, [], none⟩

/-- The `while True` loop over a finite schedule of iteration inputs:
every input is processed (the loop never exits on an iteration error). -/
def run_loop (st : LoopState) : List IterInput → LoopState
  | [] => st
  | inp :: rest => run_loop (loop_step st inp).state rest

/-- Helper: `update_instagram_note` returns normally on every input — no
exception ever propagates to the caller. -/
theorem update_instagram_note_total (client : InstagramClient) (status : String) :
    ∃ pr, update_instagram_note client status = .ok pr := by
  unfold update_instagram_note
  cases h1 : client.first_attempt with
  | success => exact ⟨_, rfl⟩
  | otherError e => exact ⟨_, rfl⟩
  | loginRequired =>
    cases h2 : client.relogin with
    | error e => exact ⟨_, rfl⟩
    | ok u =>
      cases h3 : client.second_attempt with
      | success => exact ⟨_, rfl⟩
      | loginRequired => exact ⟨_, rfl⟩
      | otherError e => exact ⟨_, rfl⟩

/-- C3: for progress ≤ duration the computed delay is
`max((duration - progress) / 2000, 30)`, and on `(None, None)` it is the
fallback constant `900` seconds. -/
theorem C3_delay_formula (d p : ℚ) (hpd : p ≤ d) :
    calculate_next_poll_time (some d) (some p) = max ((d - p) / 2000) 30 ∧
    calculate_next_poll_time none none = 900 := by
  constructor
  · unfold calculate_next_poll_time
    simp only []
    rw [div_div]
    norm_num
  · unfold calculate_next_poll_time
    norm_num

/-- C3 witness: the formula instantiated at duration 200000 ms,
progress 190000 ms. -/
theorem C3_delay_formula_witness :
    calculate_next_poll_time (some 200000) (some 190000) =
      max ((200000 - 190000 : ℚ) / 2000) 30 ∧
    calculate_next_poll_time none none = 900 :=
  C3_delay_formula 200000 190000 (by norm_num)

/-- C10: for every non-`None` pair of arguments, including
progress > duration, the computed delay is at least 30 seconds. -/
theorem C10_delay_floor (d p : ℚ) :
    30 ≤ calculate_next_poll_time (some d) (some p) := by
  unfold calculate_next_poll_time
  exact le_max_right _ _

/-- C4 counterexample: at duration 100000 ms the delays for progress
40000 ms and 50000 ms are both clamped to the 30-second floor, so the
delay is not strictly decreasing in progress. -/
theorem C4_counterexample :
    (40000 : ℚ) < 50000 ∧ (50000 : ℚ) ≤ 100000 ∧
    calculate_next_poll_time (some 100000) (some 50000) =
      calculate_next_poll_time (some 100000) (some 40000) := by
  refine ⟨by norm_num, by norm_num, ?_⟩
  unfold calculate_next_poll_time
  norm_num

/-- C4 amended: for fixed duration the delay is non-increasing in
progress, and strictly decreasing whenever the later delay is still above
the 30-second floor. -/
theorem C4_amended_monotone (d p1 p2 : ℚ) (h12 : p1 < p2) (h2d : p2 ≤ d) :
    calculate_next_poll_time (some d) (some p2) ≤
      calculate_next_poll_time (some d) (some p1) ∧
    (30 < calculate_next_poll_time (some d) (some p2) →
      calculate_next_poll_time (some d) (some p2) <
        calculate_next_poll_time (some d) (some p1)) := by
  unfold calculate_next_poll_time
  simp only []
  constructor
  · apply max_le_max_right
    apply div_le_div_of_nonneg_right _ (by norm_num)
    apply div_le_div_of_nonneg_right _ (by norm_num)
    linarith
  · intro h30
    have hlt : (d - p2) / 2 / 1000 < (d - p1) / 2 / 1000 := by
      apply div_lt_div_of_pos_right _ (by norm_num)
      apply div_lt_div_of_pos_right _ (by norm_num)
      linarith
    calc max ((d - p2) / 2 / 1000) 30 = (d - p2) / 2 / 1000 := by
          rcases max_cases ((d - p2) / 2 / 1000) (30 : ℚ) with ⟨he, _⟩ | ⟨he, hle⟩
          · exact he
          · rw [he] at h30
            linarith [he ▸ h30, hle]
      _ < (d - p1) / 2 / 1000 := hlt
      _ ≤ max ((d - p1) / 2 / 1000) 30 := le_max_left _ _

/-- C4 amended witness: instantiated at duration 200000 ms, progress
10000 ms and 20000 ms (both delays above the floor). -/
theorem C4_amended_monotone_witness :
    calculate_next_poll_time (some 200000) (some 20000) ≤
      calculate_next_poll_time (some 200000) (some 10000) ∧
    (30 < calculate_next_poll_time (some 200000) (some 20000) →
      calculate_next_poll_time (some 200000) (some 20000) <
        calculate_next_poll_time (some 200000) (some 10000)) :=
  C4_amended_monotone 200000 10000 20000 (by norm_num) (by norm_num)

/-- C2 counterexample: first `create_note` raises `LoginRequired`, the
re-login succeeds, and the retried `create_note` raises `LoginRequired`
again; the retry thus fails, yet `update_instagram_note` returns
normally (`Except.ok`) — no `PublishError` is reported upward to the
caller. -/
theorem C2_counterexample :
    update_instagram_note
      ⟨NoteOutcome.loginRequired, Except.ok (), NoteOutcome.loginRequired⟩
      ("x") = .ok ⟨2, 1, false⟩ := rfl

/-- C2 amended: on an auth-required error from the first `create_note`,
`update_instagram_note` invokes re-authentication exactly once and, when
re-authentication succeeds, retries the publish exactly once more; if the
retry also fails the error is logged and swallowed — the call still
returns normally, reporting no error upward — and no further retry
occurs within the call (at most two `create_note` calls). -/
theorem C2_amended_single_retry (client : InstagramClient) (status : String)
    (h : client.first_attempt = NoteOutcome.loginRequired) :
    ∃ pr, update_instagram_note client status = .ok pr ∧
      pr.relogin_calls = 1 ∧ pr.note_calls ≤ 2 ∧
      (∀ u, client.relogin = Except.ok u → pr.note_calls = 2) := by
  obtain ⟨fa, rl, sa⟩ := client
  dsimp only at h
  subst h
  cases rl with
  | error e => exact ⟨_, rfl, rfl, by norm_num, fun u hu => by simp at hu⟩
  | ok u =>
    cases sa with
    | success => exact ⟨_, rfl, rfl, by norm_num, fun _ _ => rfl⟩
    | loginRequired => exact ⟨_, rfl, rfl, by norm_num, fun _ _ => rfl⟩
    | otherError e => exact ⟨_, rfl, rfl, by norm_num, fun _ _ => rfl⟩

/-- C2 amended witness: the amended property instantiated at a client
whose retried publish fails again. -/
theorem C2_amended_single_retry_witness :
    ∃ pr, update_instagram_note
        ⟨NoteOutcome.loginRequired, Except.ok (), NoteOutcome.loginRequired⟩
        ("w") = .ok pr ∧
      pr.relogin_calls = 1 ∧ pr.note_calls ≤ 2 ∧
      (∀ u, (InstagramClient.mk NoteOutcome.loginRequired (Except.ok ())
          NoteOutcome.loginRequired).relogin = Except.ok u → pr.note_calls = 2) :=
  C2_amended_single_retry
    ⟨NoteOutcome.loginRequired, Except.ok (), NoteOutcome.loginRequired⟩ ("w") rfl

/-- C6: whenever the body of `get_current_song` raises (transport failure
of the Spotify call, or a parse failure such as `artists[0]` on an empty
list), `get_current_song` catches it and returns the all-`None`
quadruple instead of propagating the exception. -/
theorem C6_observer_never_throws (fetch : SpotifyFetch) (e : String)
    (h : get_current_song_body fetch = .error e) :
    get_current_song fetch = ⟨none, none, none, none⟩ := by
  unfold get_current_song
  rw [h]

/-- C6 witness: a raising fetch is mapped to the all-`None` quadruple. -/
theorem C6_observer_never_throws_witness :
    get_current_song (SpotifyFetch.raise ("ConnectionError")) =
      ⟨none, none, none, none⟩ :=
  C6_observer_never_throws (SpotifyFetch.raise ("ConnectionError"))
    ("ConnectionError") rfl

/-- C7 counterexample: the Empty case (provider reports nothing playing)
and the Unknown case (fetch raised) return the identical
`(None, None, None, None)` quadruple, so the caller cannot tell them
apart. -/
theorem C7_counterexample :
    get_current_song (SpotifyFetch.ok none) =
      get_current_song (SpotifyFetch.raise ("boom")) ∧
    get_current_song (SpotifyFetch.ok none) = ⟨none, none, none, none⟩ :=
  ⟨rfl, rfl⟩

/-- C7 amended: both Empty cases (null response, or response with a null
item) and the Unknown case (raised fetch) collapse to the same
`(None, None, None, None)` result; the two are not distinguishable by the
caller. -/
theorem C7_amended_collapse (e : String) (resp : PlayingResponse)
    (h : resp.item = none) :
    get_current_song (SpotifyFetch.raise e) = ⟨none, none, none, none⟩ ∧
    get_current_song (SpotifyFetch.ok none) = ⟨none, none, none, none⟩ ∧
    get_current_song (SpotifyFetch.ok (some resp)) = ⟨none, none, none, none⟩ := by
  refine ⟨rfl, rfl, ?_⟩
  obtain ⟨item, p⟩ := resp
  cases h
  rfl

/-- C7 amended witness: instantiated at a null-item response and a raising
fetch. -/
theorem C7_amended_collapse_witness :
    get_current_song (SpotifyFetch.raise ("boom")) = ⟨none, none, none, none⟩ ∧
    get_current_song (SpotifyFetch.ok none) = ⟨none, none, none, none⟩ ∧
    get_current_song (SpotifyFetch.ok (some ⟨none, 0⟩)) =
      ⟨none, none, none, none⟩ :=
  C7_amended_collapse ("boom") ⟨none, 0⟩ rfl

/-- Helper: a nonempty string is truthy. -/
theorem truthy_some {s : String} (h : s ≠ "") : truthy (some s) = true := by
  simp [truthy, h]

/-- Helper: when no unexpected exception is raised, the observation is an
active track `(t, a)` with nonempty title and artist, and `(t, a)` differs
from the stored previous pair, the iteration publishes exactly the
formatted status once and advances the stored pair to `(t, a)` —
regardless of whether the publish succeeded. -/
theorem loop_step_changed (st : LoopState) (inp : IterInput) (t a : String)
    (hraise : inp.raise_event = none)
    (ht : (get_current_song inp.fetch).song_title = some t)
    (ha : (get_current_song inp.fetch).artist_name = some a)
    (ht0 : t ≠ "") (ha0 : a ≠ "")
    (hdiff : some t ≠ st.prev_song_title ∨ some a ≠ st.prev_artist_name) :
    ∃ pr, update_instagram_note inp.client
        ("Listening to: " ++ t ++ " - " ++ a) = .ok pr ∧
      loop_step st inp = ⟨⟨some t, some a⟩,
        inp.now + calculate_next_poll_time (get_current_song inp.fetch).duration_ms
          (get_current_song inp.fetch).progress_ms,
        ["Listening to: " ++ t ++ " - " ++ a], some pr⟩ := by
  obtain ⟨pr, hpr⟩ :=
    update_instagram_note_total inp.client ("Listening to: " ++ t ++ " - " ++ a)
  refine ⟨pr, hpr, ?_⟩
  have hcond : ((some t != st.prev_song_title) ||
      (some a != st.prev_artist_name)) = true := by
    rcases hdiff with h | h <;> simp [bne_iff_ne, h]
  unfold loop_step loop_body
  rw [hraise]
  dsimp only
  rw [ht, ha, truthy_some ht0, truthy_some ha0, hcond]
  dsimp only [Option.getD_some]
  rw [hpr]
  rfl

/-- Helper: when no unexpected exception is raised, the observation is an
active track `(t, a)` with nonempty title and artist, and `(t, a)` equals
the stored previous pair, the iteration publishes nothing and leaves the
state unchanged. -/
theorem loop_step_unchanged (st : LoopState) (inp : IterInput) (t a : String)
    (hraise : inp.raise_event = none)
    (ht : (get_current_song inp.fetch).song_title = some t)
    (ha : (get_current_song inp.fetch).artist_name = some a)
    (ht0 : t ≠ "") (ha0 : a ≠ "")
    (hs1 : st.prev_song_title = some t) (hs2 : st.prev_artist_name = some a) :
    loop_step st inp = ⟨st,
      inp.now + calculate_next_poll_time (get_current_song inp.fetch).duration_ms
        (get_current_song inp.fetch).progress_ms,
      [], none⟩ := by
  have hcond : ((some t != st.prev_song_title) ||
      (some a != st.prev_artist_name)) = false := by
    rw [hs1, hs2]
    simp
  unfold loop_step loop_body
  rw [hraise]
  dsimp only
  rw [ht, ha, truthy_some ht0, truthy_some ha0, hcond]
  rfl

/-- Helper: when no unexpected exception is raised and the observed title
or artist is falsy (`None` or the empty string), the iteration publishes
nothing, leaves the state unchanged, and schedules the next poll after
`randint(600, 1200)` seconds. -/
theorem loop_step_no_track (st : LoopState) (inp : IterInput)
    (hraise : inp.raise_event = none)
    (hfalsy : (truthy (get_current_song inp.fetch).song_title &&
      truthy (get_current_song inp.fetch).artist_name) = false) :
    loop_step st inp = ⟨st,
      inp.now + (randint (10 * 60) (20 * 60) inp.rand_seed : ℚ), [], none⟩ := by
  unfold loop_step loop_body
  rw [hraise]
  dsimp only
  rw [hfalsy]
  rfl

/-- Helper: an exception escaping the iteration body is caught at the loop
boundary; nothing is published, the state is unchanged, and the next poll
is set to 60 seconds from now. -/
theorem loop_step_recovers (st : LoopState) (inp : IterInput) (e : String)
    (hraise : inp.raise_event = some e) :
    loop_step st inp = ⟨st, inp.now + 60, [], none⟩ := by
  unfold loop_step loop_body
  rw [hraise]

/-- Helper: `randint lo hi seed` lies in the inclusive range `[lo, hi]`. -/
theorem randint_mem (lo hi seed : ℕ) (h : lo ≤ hi) :
    lo ≤ randint lo hi seed ∧ randint lo hi seed ≤ hi := by
  unfold randint
  have := Nat.mod_lt seed (show 0 < hi - lo + 1 by omega)
  omega

/-- Fixture: a Spotify fetch returning the active track "Song A" by
"Artist A", 200000 ms long, 10000 ms in. -/
def fetch_song_A : SpotifyFetch :=
  .ok (some ⟨some ⟨"Song A", ["Artist A"], 200000⟩, 10000⟩)

/-- Fixture: an Instagram client whose `create_note` raises a non-auth
exception, so every publish attempt fails. -/
def failing_client : InstagramClient :=
  ⟨NoteOutcome.otherError ("HTTP 500"), Except.ok (), NoteOutcome.success⟩

/-- Fixture: one iteration input observing "Song A" with the failing
client, at time 0, with no unexpected exception. -/
def input_song_A_fail : IterInput := ⟨fetch_song_A, failing_client, 0, 0, none⟩

/-- C1 counterexample: starting from an empty published-state, "Song A" /
"Artist A" is observed and the publish attempt fails (the note call
raises a non-auth error, so `succeeded = false`), yet after the iteration
`(prev_song_title, prev_artist_name)` has advanced to the observed pair
instead of staying unchanged. -/
theorem C1_counterexample :
    (loop_step ⟨none, none⟩ input_song_A_fail).publish_result =
      some ⟨1, 0, false⟩ ∧
    (loop_step ⟨none, none⟩ input_song_A_fail).state =
      ⟨some ("Song A"), some ("Artist A")⟩ ∧
    (⟨some ("Song A"), some ("Artist A")⟩ : LoopState) ≠ ⟨none, none⟩ :=
  ⟨rfl, rfl, by decide⟩

/-- C1 amended: when a new (title, artist) is observed and the publish
attempt fails, the published-state is nevertheless advanced to the
observed pair (`update_instagram_note` swallows the failure and `main`
updates the state unconditionally), so the same status is not retried on
the next cycle: a second iteration observing the same track publishes
nothing. -/
theorem C1_amended_state_advances (st : LoopState) (inp : IterInput)
    (t a : String)
    (hraise : inp.raise_event = none)
    (ht : (get_current_song inp.fetch).song_title = some t)
    (ha : (get_current_song inp.fetch).artist_name = some a)
    (ht0 : t ≠ "") (ha0 : a ≠ "")
    (hdiff : some t ≠ st.prev_song_title ∨ some a ≠ st.prev_artist_name)
    (hfail : ∀ pr, update_instagram_note inp.client
      ("Listening to: " ++ t ++ " - " ++ a) = .ok pr → pr.succeeded = false) :
    (loop_step st inp).state = ⟨some t, some a⟩ ∧
    (loop_step (loop_step st inp).state inp).publishes = [] := by
  obtain ⟨pr, hpr, hstep⟩ := loop_step_changed st inp t a hraise ht ha ht0 ha0 hdiff
  constructor
  · rw [hstep]
  · rw [hstep]
    show (loop_step ⟨some t, some a⟩ inp).publishes = []
    rw [loop_step_unchanged ⟨some t, some a⟩ inp t a hraise ht ha ht0 ha0 rfl rfl]

/-- C1 amended witness: the amended property instantiated at the
"Song A" observation with the always-failing client. -/
theorem C1_amended_state_advances_witness :
    (loop_step ⟨none, none⟩ input_song_A_fail).state =
      ⟨some ("Song A"), some ("Artist A")⟩ ∧
    (loop_step (loop_step ⟨none, none⟩ input_song_A_fail).state
      input_song_A_fail).publishes = [] :=
  C1_amended_state_advances ⟨none, none⟩ input_song_A_fail ("Song A") ("Artist A")
    rfl rfl rfl (by decide) (by decide) (Or.inl (by decide))
    (fun pr h => by
      have h2 : Except.ok (⟨1, 0, false⟩ : PublishResult) = Except.ok pr := h
      injection h2 with h3
      rw [← h3])

/-- C5 counterexample: with the failing client, the first iteration
invokes a publish of "Listening to: Song A - Artist A" which fails (no
successful publish has ever occurred), and the second iteration observes
the same track; the observed pair still differs from the pair of the last
*successful* publish (there is none), yet no publish is invoked. -/
theorem C5_counterexample :
    (loop_step ⟨none, none⟩ input_song_A_fail).publishes =
      [("Listening to: Song A - Artist A")] ∧
    (loop_step ⟨none, none⟩ input_song_A_fail).publish_result =
      some ⟨1, 0, false⟩ ∧
    (loop_step (loop_step ⟨none, none⟩ input_song_A_fail).state
      input_song_A_fail).publishes = [] :=
  ⟨rfl, rfl, rfl⟩

/-- C5 amended: a publish is invoked iff the observed (title, artist)
differs from the stored `(prev_song_title, prev_artist_name)` — which
records the last publish *attempt*, not necessarily a successful one;
when invoked, the published text is exactly
`"Listening to: " ++ title ++ " - " ++ artist`; and a repeated identical
observation never triggers a re-publish. -/
theorem C5_amended_change_detector (st : LoopState) (inp : IterInput)
    (t a : String)
    (hraise : inp.raise_event = none)
    (ht : (get_current_song inp.fetch).song_title = some t)
    (ha : (get_current_song inp.fetch).artist_name = some a)
    (ht0 : t ≠ "") (ha0 : a ≠ "") :
    ((loop_step st inp).publishes ≠ [] ↔
      (some t ≠ st.prev_song_title ∨ some a ≠ st.prev_artist_name)) ∧
    ((loop_step st inp).publishes = [] ∨
      (loop_step st inp).publishes = [("Listening to: " ++ t ++ " - " ++ a)]) ∧
    (loop_step (loop_step st inp).state inp).publishes = [] := by
  by_cases hdiff : some t ≠ st.prev_song_title ∨ some a ≠ st.prev_artist_name
  · obtain ⟨pr, hpr, hstep⟩ :=
      loop_step_changed st inp t a hraise ht ha ht0 ha0 hdiff
    refine ⟨?_, ?_, ?_⟩
    · rw [hstep]
      exact iff_of_true (by simp) hdiff
    · rw [hstep]
      exact Or.inr rfl
    · rw [hstep]
      show (loop_step ⟨some t, some a⟩ inp).publishes = []
      rw [loop_step_unchanged ⟨some t, some a⟩ inp t a hraise ht ha ht0 ha0 rfl rfl]
  · push_neg at hdiff
    obtain ⟨h1, h2⟩ := hdiff
    have hunch := loop_step_unchanged st inp t a hraise ht ha ht0 ha0 h1.symm h2.symm
    refine ⟨?_, ?_, ?_⟩
    · rw [hunch]
      exact iff_of_false (by simp) (by push_neg; exact ⟨h1, h2⟩)
    · rw [hunch]
      exact Or.inl rfl
    · rw [hunch]
      show (loop_step st inp).publishes = []
      rw [hunch]

/-- C5 amended witness: the amended property instantiated at the
"Song A" observation with the always-failing client. -/
theorem C5_amended_change_detector_witness :
    ((loop_step ⟨none, none⟩ input_song_A_fail).publishes ≠ [] ↔
      (some ("Song A") ≠ (⟨none, none⟩ : LoopState).prev_song_title ∨
        some ("Artist A") ≠ (⟨none, none⟩ : LoopState).prev_artist_name)) ∧
    ((loop_step ⟨none, none⟩ input_song_A_fail).publishes = [] ∨
      (loop_step ⟨none, none⟩ input_song_A_fail).publishes =
        [("Listening to: " ++ "Song A" ++ " - " ++ "Artist A")]) ∧
    (loop_step (loop_step ⟨none, none⟩ input_song_A_fail).state
      input_song_A_fail).publishes = [] :=
  C5_amended_change_detector ⟨none, none⟩ input_song_A_fail ("Song A")
    ("Artist A") rfl rfl rfl (by decide) (by decide)

/-- C8: an exception escaping the observe/decide/publish/reschedule steps
is caught at the loop boundary, the next poll is scheduled 60 seconds
after the current time, nothing is published, the state is untouched, and
the loop goes on to process every remaining iteration. -/
theorem C8_loop_recovery (st : LoopState) (inp : IterInput) (e : String)
    (rest : List IterInput) (hraise : inp.raise_event = some e) :
    (loop_step st inp).next_poll_time = inp.now + 60 ∧
    (loop_step st inp).state = st ∧
    (loop_step st inp).publishes = [] ∧
    run_loop st (inp :: rest) = run_loop st rest := by
  have h := loop_step_recovers st inp e hraise
  refine ⟨by rw [h], by rw [h], by rw [h], ?_⟩
  show run_loop (loop_step st inp).state rest = run_loop st rest
  rw [h]

/-- C8 witness: the recovery property instantiated at an iteration whose
body raises. -/
theorem C8_loop_recovery_witness :
    (loop_step ⟨none, none⟩
      ⟨fetch_song_A, failing_client, 0, 0, some ("boom")⟩).next_poll_time =
      (⟨fetch_song_A, failing_client, 0, 0, some ("boom")⟩ : IterInput).now + 60 ∧
    (loop_step ⟨none, none⟩
      ⟨fetch_song_A, failing_client, 0, 0, some ("boom")⟩).state = ⟨none, none⟩ ∧
    (loop_step ⟨none, none⟩
      ⟨fetch_song_A, failing_client, 0, 0, some ("boom")⟩).publishes = [] ∧
    run_loop ⟨none, none⟩
        (⟨fetch_song_A, failing_client, 0, 0, some ("boom")⟩ :: []) =
      run_loop ⟨none, none⟩ [] :=
  C8_loop_recovery ⟨none, none⟩
    ⟨fetch_song_A, failing_client, 0, 0, some ("boom")⟩ ("boom") [] rfl

/-- C9: when the observed title or artist is the empty string, the
iteration is the no-track case: nothing is published, no publish call is
made, and the next poll is scheduled between 600 and 1200 seconds later
(inclusive). -/
theorem C9_empty_string_no_track (st : LoopState) (inp : IterInput)
    (hraise : inp.raise_event = none)
    (h : (get_current_song inp.fetch).song_title = some ("") ∨
      (get_current_song inp.fetch).artist_name = some ("")) :
    (loop_step st inp).publishes = [] ∧
    (loop_step st inp).publish_result = none ∧
    600 ≤ (loop_step st inp).next_poll_time - inp.now ∧
    (loop_step st inp).next_poll_time - inp.now ≤ 1200 := by
  have hfalsy : (truthy (get_current_song inp.fetch).song_title &&
      truthy (get_current_song inp.fetch).artist_name) = false := by
    rcases h with h | h <;> rw [h] <;> simp [truthy]
  have hstep := loop_step_no_track st inp hraise hfalsy
  have hr := randint_mem (10 * 60) (20 * 60) inp.rand_seed (by norm_num)
  have key : inp.now + (randint (10 * 60) (20 * 60) inp.rand_seed : ℚ) - inp.now =
      (randint (10 * 60) (20 * 60) inp.rand_seed : ℚ) := by ring
  rw [hstep]
  refine ⟨rfl, rfl, ?_, ?_⟩
  · dsimp only
    rw [key]
    calc (600 : ℚ) = ((10 * 60 : ℕ) : ℚ) := by norm_num
      _ ≤ _ := Nat.cast_le.mpr hr.1
  · dsimp only
    rw [key]
    calc ((randint (10 * 60) (20 * 60) inp.rand_seed : ℕ) : ℚ)
        ≤ ((20 * 60 : ℕ) : ℚ) := Nat.cast_le.mpr hr.2
      _ = 1200 := by norm_num

/-- C9 witness: the no-track property instantiated at an observation whose
title is the empty string. -/
theorem C9_empty_string_no_track_witness :
    (loop_step ⟨none, none⟩
      ⟨SpotifyFetch.ok (some ⟨some ⟨"", ["Artist A"], 200000⟩, 10000⟩),
       failing_client, 0, 0, none⟩).publishes = [] ∧
    (loop_step ⟨none, none⟩
      ⟨SpotifyFetch.ok (some ⟨some ⟨"", ["Artist A"], 200000⟩, 10000⟩),
       failing_client, 0, 0, none⟩).publish_result = none ∧
    600 ≤ (loop_step ⟨none, none⟩
      ⟨SpotifyFetch.ok (some ⟨some ⟨"", ["Artist A"], 200000⟩, 10000⟩),
       failing_client, 0, 0, none⟩).next_poll_time -
      (⟨SpotifyFetch.ok (some ⟨some ⟨"", ["Artist A"], 200000⟩, 10000⟩),
        failing_client, 0, 0, none⟩ : IterInput).now ∧
    (loop_step ⟨none, none⟩
      ⟨SpotifyFetch.ok (some ⟨some ⟨"", ["Artist A"], 200000⟩, 10000⟩),
       failing_client, 0, 0, none⟩).next_poll_time -
      (⟨SpotifyFetch.ok (some ⟨some ⟨"", ["Artist A"], 200000⟩, 10000⟩),
        failing_client, 0, 0, none⟩ : IterInput).now ≤ 1200 :=
  C9_empty_string_no_track ⟨none, none⟩
    ⟨SpotifyFetch.ok (some ⟨some ⟨"", ["Artist A"], 200000⟩, 10000⟩),
     failing_client, 0, 0, none⟩ rfl (Or.inl rfl)
